import Mathlib

/-!
Shallow embedding of the Group Authority & Moderation Engine of the
TelegramGuardian bot (Python sources under `bot/`).  Python dicts that hold
per-group state are modelled as association lists; a key absent from the dict
is `none` and `dict.get(k, default)` is `Option.getD` / `dget`.  Python keys
member and group ids by `str(id)`; since `str` is injective on integers, the
maps are keyed by the numeric ids directly.
-/

namespace TelegramGuardian

/-- Lookup in an association list, mirroring Python `d.get(k, dflt)`
(first binding of the key wins, as in a dict where each key is unique). -/
def dget {κ α : Type} [DecidableEq κ] (d : List (κ × α)) (k : κ) (dflt : α) : α :=
  match d with
  | [] => dflt
  | (k2, v2) :: rest => if k2 = k then v2 else dget rest k dflt

/-- Update in an association list, mirroring Python `d[k] = v`
(replace the existing binding, or append a fresh one). -/
def dset {κ α : Type} [DecidableEq κ] (d : List (κ × α)) (k : κ) (v : α) :
    List (κ × α) :=
  match d with
  | [] => [(k, v)]
  | (k2, v2) :: rest => if k2 = k then (k, v) :: rest else (k2, v2) :: dset rest k v

/-- Permission tiers from `bot/config.py` (`PERMISSION_LEVELS`). -/
def PERMISSION_LEVELS : List (String × Int) :=
  [("banned", -100), ("restricted", -10), ("regular", 0), ("trusted", 10),
   ("moderator", 50), ("admin", 100), ("owner", 1000)]

/-- Python `PERMISSION_LEVELS[name]`; every call site uses one of the seven
literal keys, so the fallback 0 is unreachable in the embedded code. -/
def permLevel (name : String) : Int :=
  dget PERMISSION_LEVELS name 0

/-- Boolean toggles of `DEFAULT_CONFIG` in `bot/config.py`.  Note the key for
the auto-delete toggle there is `auto_delete` with default `False`. -/
def DEFAULT_CONFIG_toggles : List (String × Bool) :=
  [("moderation_enabled", true), ("auto_delete", false), ("welcome_enabled", true)]

/-- Per-group record: the dict stored under `_data['groups'][str(chat_id)]`
in `bot/storage/data.py`, with the keys written by the handlers in
`bot/handlers/command_handlers.py` and `bot/handlers/message_handlers.py`. -/
structure GroupData where
  welcome_enabled : Option Bool := none
  moderation_enabled : Option Bool := none
  auto_delete_enabled : Option Bool := none
  welcome_message : Option String := none
  rules : Option String := none
  message_count : Option Nat := none
  warnings_issued : Option Nat := none
  users_banned : Option Nat := none
  user_warnings : Option (List (Nat × Nat)) := none
  permissions : Option (List (Nat × Int)) := none
  deriving DecidableEq

/-- The `groups` part of the module-level `_data` map in `bot/storage/data.py`
(the `users` part is not touched by the embedded operations). -/
structure Store where
  groups : List (Int × GroupData)
  deriving DecidableEq

/-- Python `save_data` in `bot/storage/data.py`: `json.dump` of the in-memory
map to the data file, with every exception caught and logged.  `fsOk` says
whether the backing file write succeeds; the result is the file contents
afterwards — on failure the old contents remain and no error propagates. -/
def save_data (fsOk : Bool) (mem file : Store) : Store :=
  if fsOk then mem else file

/-- Python `save_group_data` in `bot/storage/data.py`: stores the record in
the in-memory map, calls `save_data`, and returns `True`; the `except` branch
is unreachable because `save_data` swallows its own exceptions.  Returns
(reported success, in-memory store, persisted file contents). -/
def save_group_data (chat_id : Int) (data : GroupData) (fsOk : Bool)
    (mem file : Store) : Bool × Store × Store :=
  let mem2 : Store := { groups := dset mem.groups chat_id data }
  (true, mem2, save_data fsOk mem2 file)

/-- Python `get_group_data` in `bot/storage/data.py`: returns the group's
record, inserting a fresh empty dict when the group is unknown. -/
def get_group_data (chat_id : Int) (mem : Store) : GroupData × Store :=
  let g := dget mem.groups chat_id {}
  (g, { groups := dset mem.groups chat_id g })

/-- Python `check_permission` in `bot/utils/permissions.py`:
`group_data.get('permissions', {}).get(str(user_id), PERMISSION_LEVELS['regular'])`. -/
def check_permission (user_id : Nat) (g : GroupData) : Int :=
  dget (g.permissions.getD []) user_id (permLevel "regular")

/-- Python `set_permission` in `bot/utils/permissions.py`: writes the level
into the group's `permissions` dict and reports `True` (the save never
signals failure, see `save_group_data`). -/
def set_permission (user_id : Nat) (g : GroupData) (permission_level : Int) :
    Bool × GroupData :=
  let permissions := g.permissions.getD []
  let permissions := dset permissions user_id permission_level
  (true, { g with permissions := some permissions })

/-- Authorization guard shared by the promote/demote/ban/mute/warn handlers in
`bot/handlers/command_handlers.py`: first reject an actor below the command's
minimum level, then reject a target at or above the actor. -/
def handlerAuthorize (actorRank targetRank minimumRequired : Int) : Bool :=
  if actorRank < minimumRequired then false
  else if targetRank ≥ actorRank then false
  else true

/-- Python `promote_command` (authorization and rank mutation; message I/O
elided).  Returns `none` when the request is rejected, otherwise the updated
group record together with the chosen `new_level` name. -/
def promote_command (g : GroupData) (actor target : Nat) :
    Option (GroupData × String) :=
  let user_permission := check_permission actor g
  if user_permission < permLevel "admin" then none
  else
    let target_permission := check_permission target g
    if target_permission ≥ user_permission then none
    else
      let new_level := if target_permission < permLevel "moderator" then "moderator" else "admin"
      some ((set_permission target g (permLevel new_level)).snd, new_level)

/-- Python `demote_command` (authorization and rank mutation; message I/O
elided). -/
def demote_command (g : GroupData) (actor target : Nat) :
    Option (GroupData × String) :=
  let user_permission := check_permission actor g
  if user_permission < permLevel "admin" then none
  else
    let target_permission := check_permission target g
    if target_permission ≥ user_permission then none
    else
      let new_level := if target_permission ≥ permLevel "moderator" then "regular" else "restricted"
      some ((set_permission target g (permLevel new_level)).snd, new_level)

/-- Python `ban_command` (authorization and rank mutation; the Telegram API
call and message I/O elided). -/
def ban_command (g : GroupData) (actor target : Nat) : Option GroupData :=
  let user_permission := check_permission actor g
  if user_permission < permLevel "admin" then none
  else
    let target_permission := check_permission target g
    if target_permission ≥ user_permission then none
    else some (set_permission target g (permLevel "banned")).snd

/-- Python `mute_command` (authorization and rank mutation; the Telegram API
call and message I/O elided). -/
def mute_command (g : GroupData) (actor target : Nat) : Option GroupData :=
  let user_permission := check_permission actor g
  if user_permission < permLevel "moderator" then none
  else
    let target_permission := check_permission target g
    if target_permission ≥ user_permission then none
    else some (set_permission target g (permLevel "restricted")).snd

/-- Counter-update section of `warn_command` (command_handlers.py lines
654–667): bump the target's entry of `user_warnings` and the group's
`warnings_issued`, both in the record that the first `save_group_data` call
then commits.  Also returns `warning_count` read back after the bump. -/
def warn_mutation (g : GroupData) (target : Nat) : GroupData × Nat :=
  let user_warnings := g.user_warnings.getD []
  let user_warnings := dset user_warnings target (dget user_warnings target 0 + 1)
  let g1 : GroupData :=
    { g with user_warnings := some user_warnings,
             warnings_issued := some (g.warnings_issued.getD 0 + 1) }
  (g1, dget user_warnings target 0)

/-- Python `warn_command`: authorization guard, counter update, and — once
`warning_count >= 3` — the follow-up `update_user_permission` to
`restricted`.  Returns the list of successive `save_group_data` commits for
the group (the counter commit, then, past the threshold, the separate commit
made inside `set_permission`) together with the final record.  The Telegram
`restrict_chat_member` call preceding the second commit is taken to succeed. -/
def warn_command (g : GroupData) (actor target : Nat) :
    List GroupData × GroupData :=
  let user_permission := check_permission actor g
  if user_permission < permLevel "moderator" then ([], g)
  else
    let target_permission := check_permission target g
    if target_permission ≥ user_permission then ([], g)
    else
      let r := warn_mutation g target
      if r.snd ≥ 3 then
        ([r.fst, (set_permission target r.fst (permLevel "restricted")).snd],
         (set_permission target r.fst (permLevel "restricted")).snd)
      else ([r.fst], r.fst)

/-- Warning count of a member as stored in the group record. -/
def warnCount (g : GroupData) (target : Nat) : Nat :=
  dget (g.user_warnings.getD []) target 0

/-- Python `\w` character class used by the word-boundary `\b` of the
patterns in `bot/utils/moderation.py` (ASCII letters, digits, underscore). -/
def isWordChar (c : Char) : Bool :=
  c.isAlphanum || c == '_'

/-- The words of the single configured pattern
`\b(badword1|badword2|badword3)\b` in `INAPPROPRIATE_TERMS`
(`bot/utils/moderation.py`). -/
def INAPPROPRIATE_TERMS : List String :=
  ["badword1", "badword2", "badword3"]

/-- Does the word `w` occur in `chars` at position `i` flanked by word
boundaries?  Out-of-range neighbours count as non-word characters. -/
def matchesWordAt (chars : List Char) (i : Nat) (w : List Char) : Bool :=
  ((chars.drop i).take w.length == w)
    && (i == 0 || !isWordChar (chars.getD (i - 1) ' '))
    && !isWordChar (chars.getD (i + w.length) ' ')

/-- `re.search` of the pattern over the (already lowercased) text: the
leftmost word-boundary occurrence of one of the three terms wins; the terms
differ only in their final character, so at a fixed position at most one of
the alternatives can match and the alternation order never breaks a tie. -/
def reSearchTerms (chars : List Char) : Option String :=
  (List.range chars.length).findSome? fun i =>
    INAPPROPRIATE_TERMS.find? fun w => matchesWordAt chars i w.data

/-- Python `check_message_content` in `bot/utils/moderation.py`: empty text
is appropriate; otherwise lowercase the text (the terms are ASCII, so ASCII
lowering agrees with `str.lower`) and search the pattern; a match makes the
text inappropriate with the matched term quoted in the reason. -/
def check_message_content (message : String) : Bool × String :=
  if message = "" then (true, "")
  else
    let message_lower := message.data.map Char.toLower
    match reSearchTerms message_lower with
    | some matched_term => (false, "Contains inappropriate term: " ++ matched_term)
    | none => (true, "")

/-- Outcome of the content screen in `handle_text_message`
(`bot/handlers/message_handlers.py`): the message stands, is flagged with a
notice, or is removed with a notice. -/
inductive Action where
  | Allow : Action
  | Flag : String → Action
  | Remove : String → Action
  deriving DecidableEq

/-- Moderation block of `handle_text_message` (message_handlers.py lines
80–102): skip entirely when `moderation_enabled` (default `True`) is off;
otherwise, on inappropriate content, remove when `auto_delete_enabled`
(default `True`) is on, else only flag.  The block performs no writes to the
group record. -/
def screenMessage (g : GroupData) (text : String) : Action :=
  if g.moderation_enabled.getD true then
    let r := check_message_content text
    if r.fst then Action.Allow
    else if g.auto_delete_enabled.getD true then Action.Remove r.snd
    else Action.Flag r.snd
  else Action.Allow

/-- Python `handle_text_message` for a group chat (message I/O elided):
bump `message_count`, delete outright for a banned sender (`none`), and
otherwise run the content screen. -/
def handle_text_message (g : GroupData) (sender : Nat) (text : String) :
    GroupData × Option Action :=
  let g1 : GroupData := { g with message_count := some (g.message_count.getD 0 + 1) }
  let user_permission := check_permission sender g1
  if user_permission ≤ permLevel "restricted" ∧ user_permission = permLevel "banned" then
    (g1, none)
  else
    (g1, some (screenMessage g1 text))

/-- Write path of `settings_command` (command_handlers.py lines 426–459):
the three recognised setting names store the parsed boolean under their
`*_enabled` keys; an unknown name changes nothing (`none`). -/
def settings_set (g : GroupData) (setting : String) (value_bool : Bool) :
    Option GroupData :=
  if setting = "welcome" then some { g with welcome_enabled := some value_bool }
  else if setting = "moderation" then some { g with moderation_enabled := some value_bool }
  else if setting = "autodelete" then some { g with auto_delete_enabled := some value_bool }
  else none

/-- Read path for the same three settings, as in the `settings_command`
display and the read sites in `message_handlers.py`: each key is read with
`group_data.get(key, True)` — the hard-coded default is `True` for all
three. -/
def settings_get (g : GroupData) (setting : String) : Option Bool :=
  if setting = "welcome" then some (g.welcome_enabled.getD true)
  else if setting = "moderation" then some (g.moderation_enabled.getD true)
  else if setting = "autodelete" then some (g.auto_delete_enabled.getD true)
  else none

/-- Progress of one warning read-modify-write cycle, split at the only
unsynchronized boundary of the counter update in `warn_command`: the read
`user_warnings.get(k, 0)` and the write `user_warnings[k] = value + 1` are
two distinct operations on the shared record, and `bot/storage/data.py`
takes no lock between them. -/
inductive Phase where
  | toRead : Phase
  | toWrite : Nat → Phase
  | done : Phase
  deriving DecidableEq

/-- One in-flight warning cycle: its target member and its progress. -/
structure WarnThread where
  target : Nat
  phase : Phase
  deriving DecidableEq

/-- One atomic step of a warning cycle against the shared group record:
the read stores the current count locally; the write installs the stale
local count plus one and bumps `warnings_issued`, exactly as the counter
section of `warn_command` does. -/
def warnThreadStep (g : GroupData) (t : WarnThread) : GroupData × WarnThread :=
  match t.phase with
  | Phase.toRead =>
      (g, { t with phase := Phase.toWrite (dget (g.user_warnings.getD []) t.target 0) })
  | Phase.toWrite v =>
      let user_warnings := dset (g.user_warnings.getD []) t.target (v + 1)
      ({ g with user_warnings := some user_warnings,
                warnings_issued := some (g.warnings_issued.getD 0 + 1) },
       { t with phase := Phase.done })
  | Phase.done => (g, t)

/-- Run a schedule (a list of thread indices) over the shared group record:
at each tick the named thread performs its next atomic step.  This is the
interleaving the unsynchronized store admits when the transport delivers
updates concurrently. -/
def runSched : GroupData × List WarnThread → List Nat → GroupData × List WarnThread
  | st, [] => st
  | (g, ts), i :: rest =>
      match ts.get? i with
      | none => runSched (g, ts) rest
      | some t =>
          let r := warnThreadStep g t
          runSched (r.fst, ts.set i r.snd) rest

/-- One serialized warning read-modify-write cycle: the counter section of
`warn_command` run to completion before anything else touches the record. -/
def warnSerial (target : Nat) (g : GroupData) : GroupData :=
  (warn_mutation g target).fst

/-- Example group used to exercise the warning path: member 1 is a moderator
(rank 50), member 2 is a regular member with two prior warnings. -/
def warnExampleGroup : GroupData :=
  { permissions := some [(1, 50)], user_warnings := some [(2, 2)] }

/-- Reading back the key just written returns the written value. -/
theorem dget_dset_self {κ α : Type} [DecidableEq κ] (d : List (κ × α)) (k : κ)
    (v dflt : α) : dget (dset d k v) k dflt = v := by
  induction d with
  | nil => simp [dget, dset]
  | cons p rest ih =>
      obtain ⟨k2, v2⟩ := p
      by_cases h : k2 = k
      · simp [dget, dset, h]
      · simp [dget, dset, h, ih]

/-- Writing one key leaves every other key's lookup unchanged. -/
theorem dget_dset_other {κ α : Type} [DecidableEq κ] (d : List (κ × α))
    (k k2 : κ) (v dflt : α) (h : k2 ≠ k) :
    dget (dset d k v) k2 dflt = dget d k2 dflt := by
  have h2 : k ≠ k2 := fun hk => h hk.symm
  induction d with
  | nil => simp [dget, dset, h2]
  | cons p rest ih =>
      obtain ⟨k3, v3⟩ := p
      by_cases hk : k3 = k
      · subst hk
        simp [dget, dset, h2]
      · by_cases hk2 : k3 = k2
        · subst hk2
          simp [dget, dset, hk]
        · simp [dget, dset, hk, hk2, ih]

/-- Setting a member's permission then reading it back gives that level. -/
theorem check_set_permission_self (g : GroupData) (u : Nat) (l : Int) :
    check_permission u (set_permission u g l).snd = l := by
  simp [check_permission, set_permission, dget_dset_self]

/-- Setting one member's permission leaves every other member's unchanged. -/
theorem check_set_permission_other (g : GroupData) (u u2 : Nat) (l : Int)
    (h : u2 ≠ u) :
    check_permission u2 (set_permission u g l).snd = check_permission u2 g := by
  simp [check_permission, set_permission, dget_dset_other _ _ _ _ _ h]

/-- Numeric value of the moderator tier. -/
theorem permLevel_moderator : permLevel "moderator" = 50 := by decide

/-- Numeric value of the admin tier. -/
theorem permLevel_admin : permLevel "admin" = 100 := by decide

/-- Numeric value of the restricted tier. -/
theorem permLevel_restricted : permLevel "restricted" = -10 := by decide

/-- Numeric value of the regular tier. -/
theorem permLevel_regular : permLevel "regular" = 0 := by decide

/-- C1: the authorization decision applied by the promote/demote/ban/mute/warn
command handlers grants the action iff the actor is at or above the command's
minimum rank and strictly above the target; each handler instantiates exactly
this guard with its own minimum (admin for promote/demote/ban, moderator for
mute/warn), so an actor at or below the target's rank is always rejected. -/
theorem c1_authorize_iff (a b m : Int) (g : GroupData) (x y : Nat) :
    (handlerAuthorize a b m = true ↔ m ≤ a ∧ b < a) ∧
    (promote_command g x y).isSome
      = handlerAuthorize (check_permission x g) (check_permission y g) (permLevel "admin") ∧
    (demote_command g x y).isSome
      = handlerAuthorize (check_permission x g) (check_permission y g) (permLevel "admin") ∧
    (ban_command g x y).isSome
      = handlerAuthorize (check_permission x g) (check_permission y g) (permLevel "admin") ∧
    (mute_command g x y).isSome
      = handlerAuthorize (check_permission x g) (check_permission y g) (permLevel "moderator") ∧
    (warn_command g x y).fst.isEmpty
      = !handlerAuthorize (check_permission x g) (check_permission y g) (permLevel "moderator") := by
  refine ⟨?_, ?_, ?_, ?_, ?_, ?_⟩
  · unfold handlerAuthorize
    constructor
    · intro h
      split at h
      · exact absurd h (by simp)
      · split at h
        · exact absurd h (by simp)
        · omega
    · intro h
      split
      · omega
      · split
        · omega
        · rfl
  · unfold promote_command handlerAuthorize
    by_cases h1 : check_permission x g < permLevel "admin"
    · simp [h1]
    · by_cases h2 : check_permission y g ≥ check_permission x g <;> simp [h1, h2]
  · unfold demote_command handlerAuthorize
    by_cases h1 : check_permission x g < permLevel "admin"
    · simp [h1]
    · by_cases h2 : check_permission y g ≥ check_permission x g <;> simp [h1, h2]
  · unfold ban_command handlerAuthorize
    by_cases h1 : check_permission x g < permLevel "admin"
    · simp [h1]
    · by_cases h2 : check_permission y g ≥ check_permission x g <;> simp [h1, h2]
  · unfold mute_command handlerAuthorize
    by_cases h1 : check_permission x g < permLevel "moderator"
    · simp [h1]
    · by_cases h2 : check_permission y g ≥ check_permission x g <;> simp [h1, h2]
  · unfold warn_command handlerAuthorize
    by_cases h1 : check_permission x g < permLevel "moderator"
    · simp [h1]
    · by_cases h2 : check_permission y g ≥ check_permission x g
      · simp [h1, h2]
      · simp only [h1, h2, if_false]
        split <;> simp

/-- C5 counterexample: in a group where member 1 is admin (100) and member 2
is moderator (50), member 1's promotion of member 2 is authorized and sets
member 2 to 100 — exactly the acting member's rank, so promotion can raise a
target *to* the actor's rank. -/
theorem c5_counterexample :
    ((promote_command { permissions := some [(1, 100), (2, 50)] } 1 2).map
        fun r => check_permission 2 r.fst) = some 100 ∧
    check_permission 1 ({ permissions := some [(1, 100), (2, 50)] } : GroupData) = 100 := by
  decide

/-- C5 (amended): an authorized promotion never raises the target's resulting
rank strictly above the acting member's rank (it can reach exactly the
actor's rank, when an actor at exactly admin promotes a target at or above
moderator). -/
theorem c5_promote_bounded (g g2 : GroupData) (a t : Nat) (lvl : String)
    (h : promote_command g a t = some (g2, lvl)) :
    check_permission t g2 ≤ check_permission a g := by
  unfold promote_command at h
  by_cases h1 : check_permission a g < permLevel "admin"
  · simp [h1] at h
  · by_cases h2 : check_permission t g ≥ check_permission a g
    · simp [h1, h2] at h
    · simp only [h1, h2, if_false, Option.some_inj] at h
      by_cases h3 : check_permission t g < permLevel "moderator"
      · simp only [h3, if_true, Prod.mk.injEq] at h
        rw [← h.1, check_set_permission_self]
        rw [permLevel_admin] at h1
        rw [permLevel_moderator]
        omega
      · simp only [h3, if_false, Prod.mk.injEq] at h
        rw [← h.1, check_set_permission_self]
        rw [permLevel_admin] at h1 ⊢
        omega

/-- C5 witness: the amended bound applied at the concrete counterexample
group — the promoted member 2 ends at rank 100 ≤ 100, member 1's rank. -/
theorem c5_witness :
    check_permission 2
        (set_permission 2 ({ permissions := some [(1, 100), (2, 50)] } : GroupData)
          (permLevel "admin")).snd
      ≤ check_permission 1 ({ permissions := some [(1, 100), (2, 50)] } : GroupData) :=
  c5_promote_bounded _ _ 1 2 "admin" (by decide)

/-- C6: an authorized promotion of a target below moderator results in exactly
moderator, and of a target at or above moderator in exactly admin; the chosen
level name matches, and no other resulting rank is possible. -/
theorem c6_promote_two_tier (g g2 : GroupData) (a t : Nat) (lvl : String)
    (h : promote_command g a t = some (g2, lvl)) :
    (check_permission t g < permLevel "moderator" →
        lvl = "moderator" ∧ check_permission t g2 = permLevel "moderator") ∧
    (permLevel "moderator" ≤ check_permission t g →
        lvl = "admin" ∧ check_permission t g2 = permLevel "admin") := by
  unfold promote_command at h
  by_cases h1 : check_permission a g < permLevel "admin"
  · simp [h1] at h
  · by_cases h2 : check_permission t g ≥ check_permission a g
    · simp [h1, h2] at h
    · simp only [h1, h2, if_false, Option.some_inj] at h
      by_cases h3 : check_permission t g < permLevel "moderator"
      · simp only [h3, if_true, Prod.mk.injEq] at h
        refine ⟨fun _ => ⟨h.2.symm, ?_⟩, fun hge => absurd h3 (by omega)⟩
        rw [← h.1, check_set_permission_self]
      · simp only [h3, if_false, Prod.mk.injEq] at h
        refine ⟨fun hlt => absurd hlt h3, fun _ => ⟨h.2.symm, ?_⟩⟩
        rw [← h.1, check_set_permission_self]

/-- C6 witness: an admin (member 1) promoting a regular member 2 yields
exactly moderator. -/
theorem c6_witness :
    "moderator" = "moderator" ∧
    check_permission 2
        (set_permission 2 ({ permissions := some [(1, 100)] } : GroupData)
          (permLevel "moderator")).snd
      = permLevel "moderator" :=
  (c6_promote_two_tier ({ permissions := some [(1, 100)] } : GroupData) _ 1 2 "moderator"
    (by decide)).1 (by decide)

/-- C7: an authorized demotion of a target at or above moderator results in
exactly regular, and of a target below moderator in exactly restricted; the
chosen level name matches, and no other resulting rank is possible. -/
theorem c7_demote_two_tier (g g2 : GroupData) (a t : Nat) (lvl : String)
    (h : demote_command g a t = some (g2, lvl)) :
    (permLevel "moderator" ≤ check_permission t g →
        lvl = "regular" ∧ check_permission t g2 = permLevel "regular") ∧
    (check_permission t g < permLevel "moderator" →
        lvl = "restricted" ∧ check_permission t g2 = permLevel "restricted") := by
  unfold demote_command at h
  by_cases h1 : check_permission a g < permLevel "admin"
  · simp [h1] at h
  · by_cases h2 : check_permission t g ≥ check_permission a g
    · simp [h1, h2] at h
    · simp only [h1, h2, if_false, Option.some_inj] at h
      by_cases h3 : check_permission t g ≥ permLevel "moderator"
      · simp only [h3, if_true, Prod.mk.injEq] at h
        refine ⟨fun _ => ⟨h.2.symm, ?_⟩, fun hlt => absurd hlt (by omega)⟩
        rw [← h.1, check_set_permission_self]
      · simp only [h3, if_false, Prod.mk.injEq] at h
        refine ⟨fun hge => absurd hge h3, fun _ => ⟨h.2.symm, ?_⟩⟩
        rw [← h.1, check_set_permission_self]

/-- C7 witness: an admin (member 1) demoting a moderator member 2 yields
exactly regular. -/
theorem c7_witness :
    "regular" = "regular" ∧
    check_permission 2
        (set_permission 2 ({ permissions := some [(1, 100), (2, 50)] } : GroupData)
          (permLevel "regular")).snd
      = permLevel "regular" :=
  (c7_demote_two_tier ({ permissions := some [(1, 100), (2, 50)] } : GroupData) _ 1 2 "regular"
    (by decide)).1 (by decide)

/-- The `warning_count` read back by `warn_command` after the bump equals the
target's count in the record the first commit stores. -/
theorem warn_mutation_snd (g : GroupData) (t : Nat) :
    (warn_mutation g t).snd = warnCount (warn_mutation g t).fst t := by
  simp [warn_mutation, warnCount]

/-- C2 counterexample: member 1 (moderator) warns member 2 who already has
two warnings.  The warn command makes two separate commits: the first raises
the count to 3 but still stores rank 0 for member 2, only the second stores
rank −10 (restricted) — not one atomic commit as claimed. -/
theorem c2_counterexample :
    ((warn_command warnExampleGroup 1 2).fst.map
        fun h => (warnCount h 2, check_permission 2 h)) = [(3, 0), (3, -10)] := by
  decide

/-- C2 (amended): an authorized warning bumps the target's warning count and
the group's `warnings_issued` by exactly 1 in one first commit that leaves
all ranks unchanged; when the post-increment count is below 3 that is the
only commit, and once it reaches 3 the rank is forced to restricted in a
second, separate commit. -/
theorem c2_warn_commit_split (g : GroupData) (a t : Nat)
    (hmin : permLevel "moderator" ≤ check_permission a g)
    (htgt : check_permission t g < check_permission a g) :
    warnCount (warn_mutation g t).fst t = warnCount g t + 1 ∧
    (warn_mutation g t).fst.warnings_issued.getD 0 = g.warnings_issued.getD 0 + 1 ∧
    (warn_mutation g t).fst.permissions = g.permissions ∧
    (warnCount (warn_mutation g t).fst t < 3 →
        warn_command g a t = ([(warn_mutation g t).fst], (warn_mutation g t).fst)) ∧
    (3 ≤ warnCount (warn_mutation g t).fst t →
        warn_command g a t =
          ([(warn_mutation g t).fst,
            (set_permission t (warn_mutation g t).fst (permLevel "restricted")).snd],
           (set_permission t (warn_mutation g t).fst (permLevel "restricted")).snd) ∧
        check_permission t
            (set_permission t (warn_mutation g t).fst (permLevel "restricted")).snd
          = permLevel "restricted") := by
  have h1 : ¬ check_permission a g < permLevel "moderator" := not_lt.mpr hmin
  have h2 : ¬ check_permission t g ≥ check_permission a g := not_le.mpr htgt
  refine ⟨?_, ?_, ?_, ?_, ?_⟩
  · simp [warn_mutation, warnCount, dget_dset_self]
  · simp [warn_mutation]
  · simp [warn_mutation]
  · intro hlt
    have hs : ¬ (warn_mutation g t).snd ≥ 3 := by rw [warn_mutation_snd]; omega
    simp [warn_command, h1, h2, hs]
  · intro hge
    have hs : (warn_mutation g t).snd ≥ 3 := by rw [warn_mutation_snd]; omega
    refine ⟨by simp [warn_command, h1, h2, hs], check_set_permission_self _ _ _⟩

/-- C2 witness: the amended commit structure applied to the concrete example
group (count 2 → 3, so both commits occur and the second restricts). -/
theorem c2_witness :
    warnCount (warn_mutation warnExampleGroup 2).fst 2 = warnCount warnExampleGroup 2 + 1 ∧
    (warn_mutation warnExampleGroup 2).fst.warnings_issued.getD 0
      = warnExampleGroup.warnings_issued.getD 0 + 1 ∧
    (warn_mutation warnExampleGroup 2).fst.permissions = warnExampleGroup.permissions ∧
    (warnCount (warn_mutation warnExampleGroup 2).fst 2 < 3 →
        warn_command warnExampleGroup 1 2
          = ([(warn_mutation warnExampleGroup 2).fst], (warn_mutation warnExampleGroup 2).fst)) ∧
    (3 ≤ warnCount (warn_mutation warnExampleGroup 2).fst 2 →
        warn_command warnExampleGroup 1 2 =
          ([(warn_mutation warnExampleGroup 2).fst,
            (set_permission 2 (warn_mutation warnExampleGroup 2).fst (permLevel "restricted")).snd],
           (set_permission 2 (warn_mutation warnExampleGroup 2).fst (permLevel "restricted")).snd) ∧
        check_permission 2
            (set_permission 2 (warn_mutation warnExampleGroup 2).fst (permLevel "restricted")).snd
          = permLevel "restricted") :=
  c2_warn_commit_split warnExampleGroup 1 2 (by decide) (by decide)

/-- C3 counterexample: two concurrent warning cycles on the same member of
the same group, interleaved read-read-write-write as the lock-free store
admits, leave a count of 1 (a lost update); the fully serialized schedule of
the same two cycles leaves 2. -/
theorem c3_counterexample :
    warnCount (runSched ({}, [⟨2, Phase.toRead⟩, ⟨2, Phase.toRead⟩]) [0, 1, 0, 1]).fst 2 = 1 ∧
    warnCount (runSched ({}, [⟨2, Phase.toRead⟩, ⟨2, Phase.toRead⟩]) [0, 0, 1, 1]).fst 2 = 2 := by
  decide

/-- A serialized warning cycle bumps the target's count by exactly one. -/
theorem warnCount_warnSerial (t : Nat) (g : GroupData) :
    warnCount (warnSerial t g) t = warnCount g t + 1 := by
  simp [warnSerial, warn_mutation, warnCount, dget_dset_self]

/-- C3 (amended): when the warning read-modify-write cycles execute serially
(each completing before the next starts), n cycles on one member leave its
count exactly n higher — and one thread run to completion under the scheduler
is exactly one serialized cycle; the store itself, however, takes no lock, so
nothing forces concurrent cycles into this serial order (see the
counterexample schedule). -/
theorem c3_serial_exact (t : Nat) (n : Nat) (g : GroupData) :
    warnCount ((warnSerial t)^[n] g) t = warnCount g t + n ∧
    (runSched (g, [⟨t, Phase.toRead⟩]) [0, 0]).fst = warnSerial t g := by
  constructor
  · induction n with
    | zero => simp
    | succ m ih =>
        rw [Function.iterate_succ_apply', warnCount_warnSerial, ih]
        omega
  · simp [runSched, warnThreadStep, warnSerial, warn_mutation]

/-- C4 counterexample: a group mutation whose backing persistence write fails
still reports success (`True`), keeps the mutated record in memory (no
rollback), and leaves the file unchanged — there is no `StoreWriteFailure`
path at all. -/
theorem c4_counterexample :
    save_group_data 1 { rules := some "r" } false ⟨[]⟩ ⟨[]⟩ =
      (true, ⟨[(1, { rules := some "r" })]⟩, ⟨[]⟩) := by
  decide

/-- C4 (amended): `save_group_data` always installs the record in the
in-memory store and always reports success; a persistence failure is
swallowed (the file alone keeps its old contents), and only a successful
write updates the file. -/
theorem c4_save_reports_success (chat_id : Int) (d : GroupData) (fsOk : Bool)
    (mem file : Store) :
    (save_group_data chat_id d fsOk mem file).fst = true ∧
    (save_group_data chat_id d fsOk mem file).snd.fst
      = { groups := dset mem.groups chat_id d } ∧
    (fsOk = false → (save_group_data chat_id d fsOk mem file).snd.snd = file) ∧
    (fsOk = true → (save_group_data chat_id d fsOk mem file).snd.snd
      = { groups := dset mem.groups chat_id d }) := by
  refine ⟨rfl, rfl, ?_, ?_⟩ <;> intro h <;> simp [save_group_data, save_data, h]

/-- C4 witness: a failed write at a concrete input — the call still reports
success and the file stays empty. -/
theorem c4_witness :
    (save_group_data 2 { rules := some "x" } false ⟨[]⟩ ⟨[]⟩).snd.snd = (⟨[]⟩ : Store) :=
  (c4_save_reports_success 2 { rules := some "x" } false ⟨[]⟩ ⟨[]⟩).2.2.1 rfl

/-- C8: with the group's moderation toggle disabled the content screen
returns Allow for any text; with moderation enabled and text the configured
pattern matches, it returns Remove(reason) when auto-delete is enabled and
Flag(reason) when it is disabled; and the text-message handler never touches
any warning counter (nor any rank) — only explicit warn actions do. -/
theorem c8_screen_policy (g : GroupData) (text : String) :
    (g.moderation_enabled.getD true = false → screenMessage g text = Action.Allow) ∧
    (g.moderation_enabled.getD true = true →
      (check_message_content text).fst = false →
        (g.auto_delete_enabled.getD true = true →
            screenMessage g text = Action.Remove (check_message_content text).snd) ∧
        (g.auto_delete_enabled.getD true = false →
            screenMessage g text = Action.Flag (check_message_content text).snd)) ∧
    (∀ sender : Nat,
        (handle_text_message g sender text).fst.user_warnings = g.user_warnings ∧
        (handle_text_message g sender text).fst.warnings_issued = g.warnings_issued ∧
        (handle_text_message g sender text).fst.permissions = g.permissions) := by
  refine ⟨?_, ?_, ?_⟩
  · intro hmod
    simp [screenMessage, hmod]
  · intro hmod hbad
    constructor <;> intro hdel <;> simp [screenMessage, hmod, hbad, hdel]
  · intro sender
    refine ⟨?_, ?_, ?_⟩ <;> simp [handle_text_message, apply_ite]

/-- C8 witness: at concrete groups and the matching text "badword1", the
screen allows when moderation is off, removes when auto-delete is on, and
flags when auto-delete is off, quoting the matched term. -/
theorem c8_witness :
    screenMessage ({ moderation_enabled := some false } : GroupData) "badword1"
      = Action.Allow ∧
    screenMessage ({ auto_delete_enabled := some true } : GroupData) "badword1"
      = Action.Remove "Contains inappropriate term: badword1" ∧
    screenMessage ({ auto_delete_enabled := some false } : GroupData) "badword1"
      = Action.Flag "Contains inappropriate term: badword1" :=
  ⟨(c8_screen_policy ({ moderation_enabled := some false } : GroupData) "badword1").1
      (by decide),
   (((c8_screen_policy ({ auto_delete_enabled := some true } : GroupData) "badword1").2.1
      (by decide) (by decide)).1 (by decide)).trans (by decide),
   (((c8_screen_policy ({ auto_delete_enabled := some false } : GroupData) "badword1").2.1
      (by decide) (by decide)).2 (by decide)).trans (by decide)⟩

/-- C9 counterexample: the auto-delete toggle of a group in which it was
never set reads back `True`, while the configured default in
`DEFAULT_CONFIG` is `False` (under its key `auto_delete`) — the read does
not return the configured default. -/
theorem c9_counterexample :
    settings_get ({} : GroupData) "autodelete" = some true ∧
    dget DEFAULT_CONFIG_toggles "auto_delete" true = false := by
  decide

/-- C9 (amended): setting a recognised settings key and reading it back
returns exactly the written value; a key that was never set reads back the
hard-coded call-site default `True` (for all three toggles), which agrees
with `DEFAULT_CONFIG` for moderation and welcome but not for auto-delete,
whose configured default is `False` — `DEFAULT_CONFIG` is not consulted by
the per-group read path. -/
theorem c9_settings_roundtrip (g g2 : GroupData) (k : String) (v : Bool)
    (h : settings_set g k v = some g2) :
    settings_get g2 k = some v ∧
    settings_get ({} : GroupData) k = some true ∧
    dget DEFAULT_CONFIG_toggles "auto_delete" true = false := by
  unfold settings_set at h
  by_cases h1 : k = "welcome"
  · subst h1
    rw [if_pos rfl] at h
    injection h with h
    subst h
    exact ⟨by simp [settings_get], by decide, by decide⟩
  · by_cases h2 : k = "moderation"
    · subst h2
      rw [if_neg (by decide), if_pos rfl] at h
      injection h with h
      subst h
      exact ⟨by simp [settings_get], by decide, by decide⟩
    · by_cases h3 : k = "autodelete"
      · subst h3
        rw [if_neg (by decide), if_neg (by decide), if_pos rfl] at h
        injection h with h
        subst h
        exact ⟨by simp [settings_get], by decide, by decide⟩
      · rw [if_neg h1, if_neg h2, if_neg h3] at h
        exact absurd h (by simp)

/-- C9 witness: writing `False` to the auto-delete setting of a fresh group
and reading it back yields `False`, while the unset read yields `True` and
the `DEFAULT_CONFIG` default is `False`. -/
theorem c9_witness :
    settings_get ({ auto_delete_enabled := some false } : GroupData) "autodelete"
      = some false ∧
    settings_get ({} : GroupData) "autodelete" = some true ∧
    dget DEFAULT_CONFIG_toggles "auto_delete" true = false :=
  c9_settings_roundtrip ({} : GroupData) _ "autodelete" false (by decide)

/-- C10: when `set_permission` returns `True` with the updated record,
reading that member's permission back gives exactly the level written, and
every other member's permission is unchanged. -/
theorem c10_set_then_check (g : GroupData) (u : Nat) (l : Int) (g2 : GroupData)
    (h : set_permission u g l = (true, g2)) :
    check_permission u g2 = l ∧
    ∀ u2 : Nat, u2 ≠ u → check_permission u2 g2 = check_permission u2 g := by
  have hg : (set_permission u g l).snd = g2 := congrArg Prod.snd h
  subst hg
  exact ⟨check_set_permission_self g u l,
         fun u2 hu => check_set_permission_other g u u2 l hu⟩

/-- C10 witness: setting member 5 of a fresh group to level 50 reads back 50,
and member 6's permission is untouched. -/
theorem c10_witness :
    check_permission 5 (set_permission 5 ({} : GroupData) 50).snd = 50 ∧
    check_permission 6 (set_permission 5 ({} : GroupData) 50).snd
      = check_permission 6 ({} : GroupData) :=
  ⟨(c10_set_then_check ({} : GroupData) 5 50 _ (by decide)).1,
   (c10_set_then_check ({} : GroupData) 5 50 _ (by decide)).2 6 (by decide)⟩

end TelegramGuardian
